import Mathlib

/-!
Shallow embedding of `src/server.py` (Flask news-generation backend).

External effects are modelled as explicit oracle parameters:
* the single Hugging Face router HTTP call is an `HttpOutcome` value;
* the Google Translate HTTP call is a function from the request
  parameters to an optional parsed `data[0]` payload;
* `random.choice` / `random.sample` are index oracles (a `Rand` record);
* `datetime.datetime.now().strftime(...)` is a `now : String` parameter;
* the `HF_API_KEY` environment variable is an `Option String` parameter.

Machine-level details that no claim depends on (HTTP headers, CORS,
logging prints) are not modelled.
-/

namespace NewsApp

/-- `MODEL_NAME` constant from server.py. -/
def MODEL_NAME : String := "openai/gpt-oss-120b"

/-- `HF_API_URL` constant from server.py. -/
def HF_API_URL : String := "https://router.huggingface.co/hf-inference/models"

/-- Python string slice `s[:n]` (first `n` characters). -/
def strTake (s : String) (n : Nat) : String := String.mk (s.data.take n)

/-! ## translate_text -/

/-- The query parameters `translate_text` sends to
`https://translate.googleapis.com/translate_a/single`. -/
structure TransParams where
  client : String
  sl : String
  tl : String
  dt : String
  q : String
  deriving Repr, DecidableEq

/-- `language_map.get(target_language, 'en')` from `translate_text`. -/
def target_lang_code (target_language : String) : String :=
  if target_language = "ar" then "ar"
  else if target_language = "ku" then "ckb"
  else if target_language = "en" then "en"
  else "en"

/-- The params dict built inside `translate_text`; `q` is `text[:1200]`. -/
def translate_params (text target_language : String) : TransParams :=
  { client := "gtx", sl := "en", tl := target_lang_code target_language,
    dt := "t", q := strTake text 1200 }

/-- Oracle for the Google Translate backend: `none` models any failure
(non-200 status, timeout, exception, unparseable/empty JSON); `some ss`
models a 200 response whose parsed `data[0]` is the list `ss` of
sentences, each sentence a list whose head is `sentence[0]`
(`""` standing for a null/falsy entry). -/
def TransBackend : Type := TransParams → Option (List (List String))

/-- One iteration of the `for sentence in data[0]` loop: keep
`sentence[0]` when the sentence is non-empty and its head is truthy. -/
def sentencePart (sentence : List String) : Option String :=
  match sentence with
  | [] => none
  | first :: _ => if first = "" then none else some first

/-- `translate_text(text, target_language)` from server.py, with the
HTTP call abstracted as `backend`.  Returns `none` on any failure and
prefixes the RTL marker U+200F for 'ar'/'ku'. -/
def translate_text (backend : TransBackend) (text target_language : String) :
    Option String :=
  match backend (translate_params text target_language) with
  | none => none
  | some sentences =>
    let translated_parts := sentences.filterMap sentencePart
    match translated_parts with
    | [] => none
    | _ :: _ =>
      let translated_text := String.intercalate " " translated_parts
      if target_language = "ar" ∨ target_language = "ku" then
        some ("‏" ++ translated_text)
      else
        some translated_text

/-! ## get_news_prompt -/

/-- `get_news_prompt(country, topic)` from server.py: the prompt f-string,
transcribed literally. -/
def get_news_prompt (country topic : String) : String :=
  "You are a professional journalist and news assistant. Generate news about "
    ++ topic ++ " for " ++ country ++ ".\n\n"
    ++ "IMPORTANT INSTRUCTIONS:\n"
    ++ "1. Generate news in English first\n"
    ++ "2. Use this EXACT structure:\n"
    ++ "   HEADLINE: [Clear, factual headline]\n   \n"
    ++ "   SUMMARY: [2-3 sentence summary of main story]\n   \n"
    ++ "   KEY DEVELOPMENTS:\n"
    ++ "   • [Bullet point 1 - important development]\n"
    ++ "   • [Bullet point 2 - important development]\n"
    ++ "   • [Bullet point 3 - important development]\n"
    ++ "   • [Bullet point 4 - important development]\n   \n"
    ++ "   CONTEXT: [Relevant background information]\n   \n"
    ++ "   SOURCES: [Mention credible sources if applicable]\n\n"
    ++ "3. Rules:\n"
    ++ "   - Focus on latest developments (last 24-48 hours)\n"
    ++ "   - Use neutral, factual tone\n"
    ++ "   - No sensationalism or bias\n"
    ++ "   - If specific country info is limited, provide regional context\n"
    ++ "   - Never invent facts or sources\n"
    ++ "   - For political topics, use balanced perspective\n\n"
    ++ "Generate comprehensive news report about " ++ topic ++ " in " ++ country ++ "."

/-! ## call_huggingface_router -/

/-- One element of the router's JSON response list: its
`generated_text` field when present, and its Python `str()` rendering
otherwise. -/
structure RouterItem where
  generated_text : Option String
  asString : String
  deriving Repr, DecidableEq

/-- Outcome oracle for the single `requests.post` inside
`call_huggingface_router`: a 200 response with parsed JSON list `result`,
a non-200 status code, a `requests.exceptions.Timeout`, or any other
exception. -/
inductive HttpOutcome where
  | ok (result : List RouterItem)
  | status (code : Nat)
  | timeout
  | exn
  deriving Repr, DecidableEq

/-- The 200-branch of `call_huggingface_router`: take
`result[0]['generated_text']` (or `str(result[0])`) and return it only
when it is truthy and longer than 100 characters. -/
def extract_generated (result : List RouterItem) : Option String :=
  match result with
  | [] => none
  | item :: _ =>
    let generated_text :=
      match item.generated_text with
      | some t => t
      | none => item.asString
    if generated_text ≠ "" ∧ 100 < generated_text.length then some generated_text
    else none

/-- `call_huggingface_router(prompt, max_retries=2)`, instrumented with
the number of `requests.post` calls it performs.  The source body
contains exactly one `requests.post`, in no loop, and never reads
`max_retries`; every non-success path falls through to `return None`. -/
def call_huggingface_router_run (hfApiKey : Option String) (outcome : HttpOutcome)
    (prompt : String) (max_retries : Nat := 2) : Option String × Nat :=
  match hfApiKey with
  | none => (none, 0)
  | some _ =>
    match outcome with
    | .ok result => (extract_generated result, 1)
    | .status _ => (none, 1)
    | .timeout => (none, 1)
    | .exn => (none, 1)

/-- The value `call_huggingface_router` returns to its caller. -/
def call_huggingface_router (hfApiKey : Option String) (outcome : HttpOutcome)
    (prompt : String) (max_retries : Nat := 2) : Option String :=
  (call_huggingface_router_run hfApiKey outcome prompt max_retries).1

/-! ## generate_ai_news -/

/-- Index oracle standing for the `random` module's successive draws
inside one `generate_ai_news` call. -/
structure Rand where
  summaryIdx : Nat
  devIdx : Nat
  headlineIdx : Nat
  deriving Repr, DecidableEq

/-- `random.choice(l)` with the drawn index supplied by the oracle. -/
def choice (l : List String) (i : Nat) : String := l.getD (i % l.length) ""

/-- `country_templates` dict of `generate_ai_news` together with the
default of its `.get(country, [...])` lookup; `topicL` is
`topic.lower()`. -/
def templatesFor (country topicL : String) : List String :=
  if country = "Iraq" then
    ["Recent developments in Iraq's " ++ topicL ++ " sector show promising growth, with new initiatives focusing on economic diversification and regional cooperation.",
     "Iraq continues to make strides in " ++ topicL ++ ", with international partnerships strengthening and local innovation driving progress across multiple sectors."]
  else if country = "Syria" then
    ["Despite ongoing challenges, Syria reports gradual improvements in " ++ topicL ++ ", with reconstruction efforts gaining momentum and international aid supporting development.",
     "Syria's " ++ topicL ++ " landscape is evolving, with new opportunities emerging in key areas and regional cooperation playing an increasingly important role."]
  else if country = "Kurdistan Region" then
    ["The Kurdistan Region demonstrates strong progress in " ++ topicL ++ ", with innovative approaches to development and growing international investment.",
     "As a hub for regional cooperation, the Kurdistan Region's " ++ topicL ++ " initiatives are attracting attention for their effectiveness and strategic vision."]
  else if country = "Turkey" then
    ["Turkey's dynamic " ++ topicL ++ " sector continues to expand, with technological innovation and strategic partnerships driving economic growth.",
     "Recent developments in Turkey's " ++ topicL ++ " indicate robust growth, positioning the country as a key regional player in emerging markets."]
  else if country = "Global" then
    ["Global developments in " ++ topicL ++ " show interconnected progress, with international cooperation and technological advancement driving positive change worldwide.",
     "Across the globe, " ++ topicL ++ " initiatives are evolving, with shared challenges leading to innovative solutions and strengthened international partnerships."]
  else
    ["Recent developments in " ++ country ++ "'s " ++ topicL ++ " sector indicate positive momentum, with measurable progress being reported across key areas.",
     "As " ++ country ++ " continues to implement strategic initiatives, " ++ topicL ++ " shows promising growth and increasing regional influence."]

/-- The fixed `developments` pool of `generate_ai_news`. -/
def developments : List String :=
  ["Enhanced international cooperation agreements signed recently",
   "Economic indicators showing consistent upward trajectory",
   "Technological infrastructure expansion exceeding targets",
   "Policy reforms creating favorable investment conditions",
   "Educational and vocational training programs expanding",
   "Environmental sustainability projects gaining traction",
   "Cultural exchange programs strengthening global connections",
   "Healthcare system improvements benefiting communities"]

/-- `random.sample(developments, 4)` modelled by four cyclically adjacent
(hence pairwise distinct) positions starting at the oracle index. -/
def sample4 (l : List String) (i : Nat) : List String :=
  [choice l i, choice l (i + 1), choice l (i + 2), choice l (i + 3)]

/-- The `headlines` pool of `generate_ai_news`. -/
def headlinesFor (country topic : String) : List String :=
  ["Breaking News: " ++ topic ++ " Developments in " ++ country,
   country ++ " Reports Significant " ++ topic ++ " Progress",
   "Latest " ++ topic ++ " Updates from " ++ country,
   country ++ "'s " ++ topic ++ " Sector Shows Strong Growth",
   "International Focus: " ++ topic ++ " in " ++ country]

/-- `source_map` dict of `generate_ai_news` with its `.get` default. -/
def sourcesFor (country : String) : String :=
  if country = "Iraq" then
    "Based on reports from Iraqi Ministry sources and regional economic analysts"
  else if country = "Syria" then
    "Compiled from United Nations assessments and regional observer reports"
  else if country = "Kurdistan Region" then
    "Sources include Kurdistan Regional Government reports and international development agencies"
  else if country = "Turkey" then
    "Data from Turkish Statistical Institute and international economic monitoring groups"
  else if country = "Global" then
    "Based on United Nations reports and international economic assessments"
  else
    "Based on regional analysis and international monitoring reports"

/-- `generate_ai_news(country, topic)` from server.py.  `hfKeySet` is
`bool(HF_API_KEY)`, `rnd` stands for the `random` module's draws and
`now` for `datetime.datetime.now().strftime('%Y-%m-%d %H:%M')`. -/
def generate_ai_news (hfKeySet : Bool) (rnd : Rand) (now country topic : String) :
    String :=
  let topicL := topic.toLower
  let summary := choice (templatesFor country topicL) rnd.summaryIdx
  let selected_developments := sample4 developments rnd.devIdx
  let headline := choice (headlinesFor country topic) rnd.headlineIdx
  let sources := sourcesFor country
  "HEADLINE: " ++ headline
    ++ "\n\nSUMMARY: " ++ summary
    ++ "\n\nKEY DEVELOPMENTS:\n• " ++ selected_developments.getD 0 ""
    ++ "\n• " ++ selected_developments.getD 1 ""
    ++ "\n• " ++ selected_developments.getD 2 ""
    ++ "\n• " ++ selected_developments.getD 3 ""
    ++ "\n\nCONTEXT: This analysis examines current " ++ topicL
    ++ " conditions in " ++ country
    ++ ", providing insights into recent progress, ongoing challenges, and future prospects."
    ++ "\n\nREGIONAL IMPACT: Developments in " ++ country
    ++ " are influencing broader regional dynamics, with implications for international cooperation, economic development, and strategic partnerships."
    ++ "\n\nSOURCES: " ++ sources
    ++ "\n\nGENERATED: " ++ now
    ++ "\nAI NEWS ASSISTANT | Country: " ++ country ++ " | Topic: " ++ topic
    ++ " | Model: " ++ (if hfKeySet then MODEL_NAME else "High-Quality Generator")

/-! ## get_news: the /get_news POST handler -/

/-- The JSON body of a success response of `/get_news` (the `result`
dict built in `get_news`). -/
structure NewsResult where
  description : String
  success : Bool
  language : String
  country : String
  topic : String
  translated_description : Option String
  is_rtl : Bool
  ai_provider : String
  api_available : Bool
  model : String
  deriving Repr, DecidableEq

/-- The `if needs_translation and original_language != 'en'` block at the
end of `get_news`: attempt translation of `result.description` and, only
on a truthy result, set `translated_description` (and `is_rtl` for
'ar'/'ku').  Any failure leaves `result` untouched. -/
def apply_translation (backend : TransBackend) (original_language : String)
    (needs_translation : Bool) (result : NewsResult) : NewsResult :=
  if needs_translation ∧ original_language ≠ "en" then
    match translate_text backend result.description original_language with
    | some translated_text =>
      if translated_text ≠ "" then
        let r := { result with translated_description := some translated_text }
        if original_language = "ar" ∨ original_language = "ku" then
          { r with is_rtl := true }
        else r
      else result
    | none => result
  else result

/-- Lines 293-311 of `get_news`: build the prompt, try the router (the
code guards the call with `if HF_API_KEY:`, and `call_huggingface_router`
itself returns `None` with zero HTTP calls when the key is unset, so the
guard is folded into the call), then use `generate_ai_news` when
`not ai_content or len(ai_content) < 100`.  Returns
`(ai_content, ai_provider)`. -/
def resolve_content (hfApiKey : Option String) (outcome : HttpOutcome)
    (rnd : Rand) (now country topic : String) : String × String :=
  match (call_huggingface_router_run hfApiKey outcome
          (get_news_prompt country topic) 2).1 with
  | none => (generate_ai_news hfApiKey.isSome rnd now country topic,
             "AI News Generator")
  | some t =>
    if t = "" ∨ t.length < 100 then
      (generate_ai_news hfApiKey.isSome rnd now country topic,
       "AI News Generator")
    else (t, "OpenAI gpt-oss-120b")

/-- Lines 313-324 of `get_news`: the `result` dict as assembled before
the translation block, paired with the number of provider HTTP calls
made while resolving the content. -/
def pre_translation_result (hfApiKey : Option String) (outcome : HttpOutcome)
    (rnd : Rand) (now country topic : String) : NewsResult × Nat :=
  ({ description := (resolve_content hfApiKey outcome rnd now country topic).1
     success := true
     language := "en"
     country := country
     topic := topic
     translated_description := none
     is_rtl := false
     ai_provider := (resolve_content hfApiKey outcome rnd now country topic).2
     api_available := hfApiKey.isSome
     model := if hfApiKey.isSome then MODEL_NAME else "High-Quality Generator" },
   (call_huggingface_router_run hfApiKey outcome
     (get_news_prompt country topic) 2).2)

/-- The body of `get_news` after field extraction: resolve the content
(provider attempt with fallback), assemble the `result` dict, then run
the optional translation block.  The second component counts the
`requests.post` calls made to the provider. -/
def get_news_core (hfApiKey : Option String) (outcome : HttpOutcome)
    (backend : TransBackend) (rnd : Rand) (now : String)
    (country topic original_language : String) (needs_translation : Bool) :
    NewsResult × Nat :=
  (apply_translation backend original_language needs_translation
    (pre_translation_result hfApiKey outcome rnd now country topic).1,
   (pre_translation_result hfApiKey outcome rnd now country topic).2)

/-- A JSON value as a field of the request object: string, boolean,
number (integers; the float cases behave identically here), null, or a
composite (array/object) carrying its truthiness and its Python `str()`
rendering. -/
inductive JVal where
  | s (v : String)
  | b (v : Bool)
  | i (v : Int)
  | nullv
  | comp (truthy : Bool) (asString : String)
  deriving Repr, DecidableEq

/-- Python truthiness of a `JVal`. -/
def JVal.truthy : JVal → Bool
  | .s v => v ≠ ""
  | .b v => v
  | .i v => v ≠ 0
  | .nullv => false
  | .comp t _ => t

/-- Python `str()` of a `JVal` (how a field value behaves in f-strings;
for dict lookups and `!=` comparisons against the string literals
'en'/'ar'/'ku' the rendering of a non-string never collides with those
keys, so using it there preserves the source's branching). -/
def JVal.toStr : JVal → String
  | .s v => v
  | .b v => if v then "True" else "False"
  | .i v => toString v
  | .nullv => "None"
  | .comp _ r => r

/-- Whether the value is a Python `str` (only strings have `.lower()`;
`topic.lower()` in `generate_ai_news` raises `AttributeError`
otherwise). -/
def JVal.isStr : JVal → Bool
  | .s _ => true
  | _ => false

/-- Whether the value is hashable (a composite value makes
`country_templates.get(country, ...)` raise `TypeError`; scalars and
null are hashable). -/
def JVal.isHashable : JVal → Bool
  | .comp _ _ => false
  | _ => true

/-- `data.get(key, default)` on the parsed JSON object, modelled as an
association list (first binding wins, as after JSON parsing keys are
unique). -/
def getField (data : List (String × JVal)) (key : String) (dflt : JVal) : JVal :=
  match data.find? (fun p => p.1 == key) with
  | some p => p.2
  | none => dflt

/-- What `request.get_json()` did: raised (unparseable body or
unsupported media type — Flask raises an exception, which the handler's
`except Exception` catches); returned `None` (JSON null) or a JSON
object; or returned a non-object JSON value (array/string/number),
abstracted by its truthiness — a truthy non-object passes
`if not data:` and then raises `AttributeError` at `data.get`. -/
inductive ParseOutcome where
  | raised (detail : String)
  | parsed (data : Option (List (String × JVal)))
  | parsedNonDict (truthy : Bool) (detail : String)
  deriving Repr, DecidableEq

/-- The JSON body sent back by `get_news`: a 400 error dict, the 500
error dict of the `except` handler, or the success `result` dict. -/
inductive RouteBody where
  | err (error : String)
  | errDetails (error details : String)
  | ok (result : NewsResult)
  deriving Repr, DecidableEq

/-- Whether `get_news` takes the `generate_ai_news` fallback for its
content — `not ai_content or len(ai_content) < 100` after the router
call (the prompt text is ignored by the outcome oracle). -/
def uses_fallback (hfApiKey : Option String) (outcome : HttpOutcome)
    (prompt : String) : Bool :=
  match (call_huggingface_router_run hfApiKey outcome prompt 2).1 with
  | none => true
  | some t => t == "" || decide (t.length < 100)

/-- The rest of the `try` block once the four fields are extracted.
`generate_ai_news` is only reached on the fallback path; there a
non-string `topic` raises `AttributeError` at the `topic.lower()`
f-strings of the `country_templates` literal, and a composite `country`
raises `TypeError` at `country_templates.get` — both caught by the
handler's `except Exception`.  A composite `original_language` makes the
real `translate_text` raise at `language_map.get` inside its own
try/except, i.e. translation silently returns `None`; this is modelled
by blanking the translation backend for that case. -/
def get_news_try (hfApiKey : Option String) (outcome : HttpOutcome)
    (backend : TransBackend) (rnd : Rand) (now : String)
    (country topic original_language : JVal) (needs_translation : Bool) :
    Except String NewsResult :=
  if (!topic.isStr || !country.isHashable)
      && uses_fallback hfApiKey outcome
          (get_news_prompt country.toStr topic.toStr) then
    .error "object has no attribute lower"
  else
    .ok (get_news_core hfApiKey outcome
          (if original_language.isHashable then backend else fun _ => none)
          rnd now country.toStr topic.toStr original_language.toStr
          needs_translation).1

/-- The `/get_news` POST handler `get_news` from server.py (the OPTIONS
preflight branch is not modelled): returns the HTTP status code and the
JSON body. -/
def get_news (parse : ParseOutcome) (hfApiKey : Option String)
    (outcome : HttpOutcome) (backend : TransBackend) (rnd : Rand)
    (now : String) : Nat × RouteBody :=
  match parse with
  | .raised detail => (500, .errDetails "Failed to process request" detail)
  | .parsedNonDict truthy detail =>
    if truthy then (500, .errDetails "Failed to process request" detail)
    else (400, .err "No data provided")
  | .parsed data =>
    match data with
    | none => (400, .err "No data provided")
    | some fields =>
      match fields with
      | [] => (400, .err "No data provided")
      | _ :: _ =>
        let country := getField fields "country" (.s "Global")
        let topic := getField fields "topic" (.s "Breaking News")
        let original_language := getField fields "original_language" (.s "en")
        let needs_translation :=
          (getField fields "needs_translation" (.b false)).truthy
        match get_news_try hfApiKey outcome backend rnd now
            country topic original_language needs_translation with
        | .error detail => (500, .errDetails "Failed to process request" detail)
        | .ok res => (200, .ok res)

/-- The in-body type-error condition of a parsed request, as a predicate
on the parse outcome: a non-empty object whose `topic` is not a string
(or whose `country` is composite) raises on the fallback path. -/
def bodyTypeRaises (parse : ParseOutcome) (hfApiKey : Option String)
    (outcome : HttpOutcome) : Bool :=
  match parse with
  | .parsed (some (f :: fs)) =>
    (!(getField (f :: fs) "topic" (.s "Breaking News")).isStr
      || !(getField (f :: fs) "country" (.s "Global")).isHashable)
    && uses_fallback hfApiKey outcome
        (get_news_prompt (getField (f :: fs) "country" (.s "Global")).toStr
          (getField (f :: fs) "topic" (.s "Breaking News")).toStr)
  | _ => false

end NewsApp

namespace NewsApp

theorem strTake_idem (s : String) (n : Nat) :
    strTake (strTake s n) n = strTake s n := by
  unfold strTake
  simp [List.take_take]

/-! ## Helper lemmas -/

theorem apply_translation_description (b : TransBackend) (l : String) (n : Bool)
    (r : NewsResult) : (apply_translation b l n r).description = r.description := by
  unfold apply_translation
  repeat' split
  all_goals rfl

theorem apply_translation_success (b : TransBackend) (l : String) (n : Bool)
    (r : NewsResult) : (apply_translation b l n r).success = r.success := by
  unfold apply_translation
  repeat' split
  all_goals rfl

theorem apply_translation_ai_provider (b : TransBackend) (l : String) (n : Bool)
    (r : NewsResult) : (apply_translation b l n r).ai_provider = r.ai_provider := by
  unfold apply_translation
  repeat' split
  all_goals rfl

/-- The router returns content only when it is truthy and longer than 100
characters. -/
theorem router_some (k : Option String) (o : HttpOutcome) (p : String) (r : Nat)
    (t : String) (h : call_huggingface_router k o p r = some t) :
    t ≠ "" ∧ 100 < t.length := by
  unfold call_huggingface_router call_huggingface_router_run at h
  cases k with
  | none => simp at h
  | some key =>
    cases o with
    | ok result =>
      simp only at h
      unfold extract_generated at h
      cases result with
      | nil => simp at h
      | cons item rest =>
        simp only at h
        split at h
        · rename_i hc
          cases h
          exact hc
        · simp at h
    | status c => simp at h
    | timeout => simp at h
    | exn => simp at h

/-- One router attempt is made per call when the key is configured,
regardless of the outcome and of `max_retries`. -/
theorem router_run_calls (k : String) (o : HttpOutcome) (p : String) (r : Nat) :
    (call_huggingface_router_run (some k) o p r).2 = 1 := by
  cases o <;> rfl

/-- The fallback generator always produces more than 100 characters. -/
theorem generate_ai_news_length (hf : Bool) (rnd : Rand) (now country topic : String) :
    100 < (generate_ai_news hf rnd now country topic).length := by
  unfold generate_ai_news
  simp only [String.length_append]
  have h1 : 100 < String.length " are influencing broader regional dynamics, with implications for international cooperation, economic development, and strategic partnerships." := by
    norm_num [String.length]
  omega

/-- `get_news_core` makes exactly one provider call when `HF_API_KEY` is
set. -/
theorem get_news_core_calls (k : String) (outcome : HttpOutcome)
    (backend : TransBackend) (rnd : Rand) (now country topic lang : String)
    (nt : Bool) :
    (get_news_core (some k) outcome backend rnd now country topic lang nt).2 = 1 :=
  router_run_calls k outcome (get_news_prompt country topic) 2

/-- The `success` field assembled by `get_news_core` is always `true`. -/
theorem get_news_core_success (k : Option String) (outcome : HttpOutcome)
    (backend : TransBackend) (rnd : Rand) (now country topic lang : String)
    (nt : Bool) :
    (get_news_core k outcome backend rnd now country topic lang nt).1.success = true := by
  show (apply_translation backend lang nt
    (pre_translation_result k outcome rnd now country topic).1).success = true
  rw [apply_translation_success]
  rfl

/-- `get_news_core` is `apply_translation` over the pre-translation
result. -/
theorem get_news_core_eq (hfApiKey : Option String) (outcome : HttpOutcome)
    (backend : TransBackend) (rnd : Rand) (now country topic lang : String)
    (nt : Bool) :
    get_news_core hfApiKey outcome backend rnd now country topic lang nt =
      (apply_translation backend lang nt
        (pre_translation_result hfApiKey outcome rnd now country topic).1,
       (pre_translation_result hfApiKey outcome rnd now country topic).2) := rfl

theorem pre_translation_is_rtl (hfApiKey : Option String) (outcome : HttpOutcome)
    (rnd : Rand) (now country topic : String) :
    (pre_translation_result hfApiKey outcome rnd now country topic).1.is_rtl = false := rfl

theorem pre_translation_td (hfApiKey : Option String) (outcome : HttpOutcome)
    (rnd : Rand) (now country topic : String) :
    (pre_translation_result hfApiKey outcome rnd now country topic).1.translated_description
      = none := rfl

/-- A failed translation leaves the result dict untouched. -/
theorem apply_translation_of_translate_none (b : TransBackend) (l : String)
    (n : Bool) (r : NewsResult) (h : translate_text b r.description l = none) :
    apply_translation b l n r = r := by
  unfold apply_translation
  split
  · rw [h]
  · rfl

/-- A successful translation for an RTL target starts with the U+200F
marker. -/
theorem translate_text_rtl_prefix (backend : TransBackend) (text lang : String)
    (hl : lang = "ar" ∨ lang = "ku") (t : String)
    (h : translate_text backend text lang = some t) :
    ∃ rest, t = "‏" ++ rest := by
  unfold translate_text at h
  cases hb : backend (translate_params text lang) with
  | none => rw [hb] at h; simp at h
  | some sentences =>
    rw [hb] at h
    simp only at h
    cases hparts : sentences.filterMap sentencePart with
    | nil => rw [hparts] at h; simp at h
    | cons a l =>
      rw [hparts] at h
      simp only [if_pos hl] at h
      exact ⟨_, (Option.some.injEq _ _ ▸ h).symm⟩

/-! ## Claims -/

/-- The first character of `"‏" ++ rest` is the U+200F marker. -/
theorem strTake_one_marker (rest : String) : strTake ("‏" ++ rest) 1 = "‏" := by
  unfold strTake
  refine congrArg String.mk ?_
  rw [String.data_append]
  rfl

/-- C1 counterexample: with a configured key, two identical requests
each invoke the provider once (two HTTP attempts in total, not one), and
their fallback descriptions differ as the random draws and timestamps
differ — no Response Cache exists in the code. -/
theorem C1_counterexample :
    ((get_news_core (some "hf_k") .timeout (fun _ => none) ⟨0, 0, 0⟩
        "2026-01-01 10:00" "Iraq" "Technology" "en" false).2 +
      (get_news_core (some "hf_k") .timeout (fun _ => none) ⟨1, 1, 1⟩
        "2026-01-01 10:05" "Iraq" "Technology" "en" false).2 = 2) ∧
    (get_news_core (some "hf_k") .timeout (fun _ => none) ⟨0, 0, 0⟩
        "2026-01-01 10:00" "Iraq" "Technology" "en" false).1.description ≠
      (get_news_core (some "hf_k") .timeout (fun _ => none) ⟨1, 1, 1⟩
        "2026-01-01 10:05" "Iraq" "Technology" "en" false).1.description := by
  exact ⟨rfl, by decide⟩

/-- C1 amended: there is no response cache — every request with a
configured key makes exactly one provider call, so a repeated identical
request invokes the provider a second time instead of being served from
a cache. -/
theorem C1_no_cache_amended (k : String) (o1 o2 : HttpOutcome)
    (b1 b2 : TransBackend) (r1 r2 : Rand) (n1 n2 country topic lang : String)
    (nt : Bool) :
    (get_news_core (some k) o1 b1 r1 n1 country topic lang nt).2 = 1 ∧
    (get_news_core (some k) o1 b1 r1 n1 country topic lang nt).2 +
      (get_news_core (some k) o2 b2 r2 n2 country topic lang nt).2 = 2 := by
  have h1 := get_news_core_calls k o1 b1 r1 n1 country topic lang nt
  have h2 := get_news_core_calls k o2 b2 r2 n2 country topic lang nt
  omega

/-- C2 counterexample: the spec's example scenario — country Iraq, topic
Technology, original_language 'ar', needs_translation true, all
providers failing and the translation backend unavailable — yields
`is_rtl = false`, not `true`: the code sets `is_rtl` only after a
successful translation. -/
theorem C2_counterexample :
    (get_news_core (some "hf_k") .timeout (fun _ => none) ⟨0, 0, 0⟩
        "2026-01-01 10:00" "Iraq" "Technology" "ar" true).1.is_rtl = false := by
  rfl

/-- C2 amended: for an RTL `original_language` ('ar' or 'ku') with
translation requested, `is_rtl` is true exactly when a translation was
produced (`translated_description` present); when the translation
backend fails, `is_rtl` stays false; and any produced
`translated_description` begins with the U+200F directional marker. -/
theorem C2_rtl_amended (hfApiKey : Option String) (outcome : HttpOutcome)
    (backend : TransBackend) (rnd : Rand) (now country topic lang : String)
    (hl : lang = "ar" ∨ lang = "ku") :
    ((get_news_core hfApiKey outcome backend rnd now country topic lang
        true).1.is_rtl = true ↔
      (get_news_core hfApiKey outcome backend rnd now country topic lang
        true).1.translated_description ≠ none) ∧
    Option.all (fun s => strTake s 1 == "‏")
      (get_news_core hfApiKey outcome backend rnd now country topic lang
        true).1.translated_description = true := by
  have hen : lang ≠ "en" := by
    rcases hl with h | h <;> rw [h] <;> decide
  have hmain : ∀ r : NewsResult, r.is_rtl = false →
      r.translated_description = none →
      ((apply_translation backend lang true r).is_rtl = true ↔
        (apply_translation backend lang true r).translated_description ≠ none) ∧
      Option.all (fun s => strTake s 1 == "‏")
        (apply_translation backend lang true r).translated_description = true := by
    intro r hrtl htd
    unfold apply_translation
    rw [if_pos ⟨rfl, hen⟩]
    cases ht : translate_text backend r.description lang with
    | none => simp [hrtl, htd]
    | some t =>
      dsimp only
      by_cases hne : t ≠ ""
      · obtain ⟨rest, hrest⟩ :=
          translate_text_rtl_prefix backend r.description lang hl t ht
        subst hrest
        rw [if_pos hne, if_pos hl]
        refine ⟨by simp, ?_⟩
        simp [Option.all, strTake_one_marker]
      · rw [if_neg hne]
        simp [hrtl, htd]
  exact hmain (pre_translation_result hfApiKey outcome rnd now country topic).1
    rfl rfl

/-- Witness for C2's amended claim: with a reachable translation backend
the RTL response carries `is_rtl = true` and a marker-prefixed
translation; the hypothesis (lang 'ar') is discharged concretely. -/
theorem C2_rtl_amended_witness :
    (((get_news_core none .timeout (fun _ => some [["مرحبا"]]) ⟨0, 0, 0⟩
        "2026-01-01 10:00" "Iraq" "Technology" "ar" true).1.is_rtl = true ↔
      (get_news_core none .timeout (fun _ => some [["مرحبا"]]) ⟨0, 0, 0⟩
        "2026-01-01 10:00" "Iraq" "Technology" "ar" true).1.translated_description
        ≠ none) ∧
    Option.all (fun s => strTake s 1 == "‏")
      (get_news_core none .timeout (fun _ => some [["مرحبا"]]) ⟨0, 0, 0⟩
        "2026-01-01 10:00" "Iraq" "Technology" "ar"
        true).1.translated_description = true) :=
  C2_rtl_amended none .timeout (fun _ => some [["مرحبا"]]) ⟨0, 0, 0⟩
    "2026-01-01 10:00" "Iraq" "Technology" "ar" (Or.inl rfl)

/-- C6: when the translation step fails (backend error, timeout, empty
or all-falsy payload — `translate_text` returns `None`), the response is
exactly the response of the same request without translation: `success`
stays true, `description` keeps the original content and
`translated_description` is absent. -/
theorem C6_translation_failure_isolated (hfApiKey : Option String)
    (outcome : HttpOutcome) (backend : TransBackend) (rnd : Rand)
    (now country topic lang : String)
    (h : translate_text backend
          (get_news_core hfApiKey outcome backend rnd now country topic lang
            false).1.description lang = none) :
    get_news_core hfApiKey outcome backend rnd now country topic lang true =
      get_news_core hfApiKey outcome backend rnd now country topic lang false := by
  have hdesc : (get_news_core hfApiKey outcome backend rnd now country topic lang
      false).1.description =
      (pre_translation_result hfApiKey outcome rnd now country
        topic).1.description := by
    show (apply_translation backend lang false
      (pre_translation_result hfApiKey outcome rnd now country
        topic).1).description = _
    rw [apply_translation_description]
  rw [hdesc] at h
  show (apply_translation backend lang true
      (pre_translation_result hfApiKey outcome rnd now country topic).1,
     (pre_translation_result hfApiKey outcome rnd now country topic).2) =
    (apply_translation backend lang false
      (pre_translation_result hfApiKey outcome rnd now country topic).1,
     (pre_translation_result hfApiKey outcome rnd now country topic).2)
  rw [apply_translation_of_translate_none backend lang true _ h,
    apply_translation_of_translate_none backend lang false _ h]

/-- Witness for C6 at a concrete input: unreachable translation backend,
RTL language requested — the two runs coincide. -/
theorem C6_translation_failure_isolated_witness :
    get_news_core none .timeout (fun _ => none) ⟨0, 0, 0⟩ "2026-01-01 10:00"
        "Iraq" "Technology" "ar" true =
      get_news_core none .timeout (fun _ => none) ⟨0, 0, 0⟩ "2026-01-01 10:00"
        "Iraq" "Technology" "ar" false :=
  C6_translation_failure_isolated none .timeout (fun _ => none) ⟨0, 0, 0⟩
    "2026-01-01 10:00" "Iraq" "Technology" "ar" rfl

/-- C7 counterexample: a POST whose body cannot be parsed (so
`request.get_json()` raises) is answered with HTTP 500, not the claimed
400 — the parse exception is swallowed by the handler's generic
`except Exception` branch. -/
theorem C7_counterexample :
    (get_news (.raised "Failed to decode JSON object") (some "hf_k") .timeout
      (fun _ => none) ⟨0, 0, 0⟩ "2026-01-01 10:00").1 = 500 := rfl

/-- C7 amended: the handler returns only the statuses 200, 400 and 500.
400 occurs exactly for a body that parses to nothing (null, empty
object, or a falsy non-object value); 500 occurs exactly when the body
was unparseable (`get_json` raised), when it parsed to a truthy
non-object (`AttributeError` at `data.get`), or when a non-empty object
carries a type-confused `topic`/`country` and the provider pipeline
falls back (`topic.lower()` / `country_templates.get` raise) — so a 5xx
can even depend on upstream-provider failure; every other body is
answered 200 with `success = true`, so a well-typed valid request never
sees an error status for provider problems. -/
theorem C7_status_amended (parse : ParseOutcome) (hfApiKey : Option String)
    (outcome : HttpOutcome) (backend : TransBackend) (rnd : Rand)
    (now : String) :
    ((get_news parse hfApiKey outcome backend rnd now).1 = 200 ∨
      (get_news parse hfApiKey outcome backend rnd now).1 = 400 ∨
      (get_news parse hfApiKey outcome backend rnd now).1 = 500) ∧
    ((get_news parse hfApiKey outcome backend rnd now).1 = 400 ↔
      (parse = .parsed none ∨ parse = .parsed (some []) ∨
        ∃ d, parse = .parsedNonDict false d)) ∧
    ((get_news parse hfApiKey outcome backend rnd now).1 = 500 ↔
      ((∃ d, parse = .raised d) ∨ (∃ d, parse = .parsedNonDict true d) ∨
        bodyTypeRaises parse hfApiKey outcome = true)) ∧
    ((get_news parse hfApiKey outcome backend rnd now).1 = 200 ↔
      ∃ res, (get_news parse hfApiKey outcome backend rnd now).2
          = RouteBody.ok res ∧ res.success = true) := by
  cases parse with
  | raised d =>
    refine ⟨Or.inr (Or.inr rfl), ?_,
      ⟨fun _ => Or.inl ⟨d, rfl⟩, fun _ => rfl⟩, ?_⟩
    · constructor
      · intro hc; simp [get_news] at hc
      · rintro (hd | hd | ⟨d', hd⟩) <;> simp at hd
    · constructor
      · intro hc; simp [get_news] at hc
      · rintro ⟨res, hres, _⟩; simp [get_news] at hres
  | parsedNonDict truthy d =>
    cases truthy with
    | true =>
      refine ⟨Or.inr (Or.inr rfl), ?_,
        ⟨fun _ => Or.inr (Or.inl ⟨d, rfl⟩), fun _ => rfl⟩, ?_⟩
      · constructor
        · intro hc; simp [get_news] at hc
        · rintro (hd | hd | ⟨d', hd⟩) <;> simp at hd
      · constructor
        · intro hc; simp [get_news] at hc
        · rintro ⟨res, hres, _⟩; simp [get_news] at hres
    | false =>
      refine ⟨Or.inr (Or.inl rfl), ⟨fun _ => Or.inr (Or.inr ⟨d, rfl⟩),
        fun _ => rfl⟩, ?_, ?_⟩
      · constructor
        · intro hc; simp [get_news] at hc
        · rintro (⟨d', hd⟩ | ⟨d', hd⟩ | hd) <;>
            simp [bodyTypeRaises] at hd
      · constructor
        · intro hc; simp [get_news] at hc
        · rintro ⟨res, hres, _⟩; simp [get_news] at hres
  | parsed data =>
    cases data with
    | none =>
      refine ⟨Or.inr (Or.inl rfl), ⟨fun _ => Or.inl rfl, fun _ => rfl⟩, ?_, ?_⟩
      · constructor
        · intro hc; simp [get_news] at hc
        · rintro (⟨d, hd⟩ | ⟨d, hd⟩ | hd) <;> simp [bodyTypeRaises] at hd
      · constructor
        · intro hc; simp [get_news] at hc
        · rintro ⟨res, hres, _⟩; simp [get_news] at hres
    | some fields =>
      cases fields with
      | nil =>
        refine ⟨Or.inr (Or.inl rfl), ⟨fun _ => Or.inr (Or.inl rfl),
          fun _ => rfl⟩, ?_, ?_⟩
        · constructor
          · intro hc; simp [get_news] at hc
          · rintro (⟨d, hd⟩ | ⟨d, hd⟩ | hd) <;> simp [bodyTypeRaises] at hd
        · constructor
          · intro hc; simp [get_news] at hc
          · rintro ⟨res, hres, _⟩; simp [get_news] at hres
      | cons f fs =>
        by_cases hraise : bodyTypeRaises (.parsed (some (f :: fs))) hfApiKey
            outcome = true
        · have hget : get_news (.parsed (some (f :: fs))) hfApiKey outcome
              backend rnd now
              = (500, .errDetails "Failed to process request"
                  "object has no attribute lower") := by
            simp only [get_news, get_news_try]
            rw [if_pos (by simpa [bodyTypeRaises] using hraise)]
          rw [hget]
          refine ⟨Or.inr (Or.inr rfl), ?_, ?_, ?_⟩
          · constructor
            · intro hc; simp at hc
            · rintro (hd | hd | ⟨d, hd⟩) <;> simp at hd
          · exact ⟨fun _ => Or.inr (Or.inr hraise), fun _ => rfl⟩
          · constructor
            · intro hc; simp at hc
            · rintro ⟨res, hres, _⟩; simp at hres
        · have hget : get_news (.parsed (some (f :: fs))) hfApiKey outcome
              backend rnd now
              = (200, .ok (get_news_core hfApiKey outcome
                  (if (getField (f :: fs) "original_language"
                        (.s "en")).isHashable then backend
                   else fun _ => none) rnd now
                  (getField (f :: fs) "country" (.s "Global")).toStr
                  (getField (f :: fs) "topic" (.s "Breaking News")).toStr
                  (getField (f :: fs) "original_language" (.s "en")).toStr
                  (getField (f :: fs) "needs_translation"
                    (.b false)).truthy).1) := by
            simp only [get_news, get_news_try]
            rw [if_neg (by simpa [bodyTypeRaises] using hraise)]
          rw [hget]
          refine ⟨Or.inl rfl, ?_, ?_, ?_⟩
          · constructor
            · intro hc; simp at hc
            · rintro (hd | hd | ⟨d, hd⟩) <;> simp at hd
          · constructor
            · intro hc; simp at hc
            · rintro (⟨d, hd⟩ | ⟨d, hd⟩ | hd)
              · simp at hd
              · simp at hd
              · exact absurd hd hraise
          · refine ⟨fun _ => ⟨_, rfl, ?_⟩, fun _ => rfl⟩
            exact get_news_core_success hfApiKey outcome _ rnd now _ _ _ _


/-- C3: the code performs exactly one `requests.post` per
`call_huggingface_router` call whatever the outcome and whatever
`max_retries` is — in particular, a transient failure (timeout) yields
`(None, 1 attempt)` with no retry and no backoff, contradicting the
declared `max_retries + 1` attempt budget. -/
theorem C3_single_attempt_no_retry (k prompt : String) (max_retries : Nat)
    (outcome : HttpOutcome) :
    (call_huggingface_router_run (some k) outcome prompt max_retries).2 = 1 ∧
    call_huggingface_router_run (some k) .timeout prompt max_retries = (none, 1) := by
  exact ⟨router_run_calls k outcome prompt max_retries, rfl⟩

/-- C4: whenever the provider call yields nothing (every attempt failed,
or no key is configured), the response still has `success = true` and its
`ai_provider` field is the fallback identity "AI News Generator". -/
theorem C4_degraded_mode_honest (hfApiKey : Option String) (outcome : HttpOutcome)
    (backend : TransBackend) (rnd : Rand) (now country topic lang : String)
    (nt : Bool)
    (h : call_huggingface_router hfApiKey outcome (get_news_prompt country topic) 2
          = none) :
    (get_news_core hfApiKey outcome backend rnd now country topic lang nt).1.success
        = true ∧
    (get_news_core hfApiKey outcome backend rnd now country topic lang nt).1.ai_provider
        = "AI News Generator" := by
  refine ⟨get_news_core_success hfApiKey outcome backend rnd now country topic lang nt, ?_⟩
  show (apply_translation backend lang nt
    (pre_translation_result hfApiKey outcome rnd now country topic).1).ai_provider
      = "AI News Generator"
  rw [apply_translation_ai_provider]
  show (resolve_content hfApiKey outcome rnd now country topic).2 = "AI News Generator"
  unfold call_huggingface_router at h
  unfold resolve_content
  rw [h]

/-- Witness for C4 at a concrete degraded input: key configured, the
single attempt times out. -/
theorem C4_degraded_mode_honest_witness :
    (get_news_core (some "hf_k") .timeout (fun _ => none) ⟨0, 0, 0⟩
        "2026-01-01 10:00" "Iraq" "Technology" "en" false).1.success = true ∧
    (get_news_core (some "hf_k") .timeout (fun _ => none) ⟨0, 0, 0⟩
        "2026-01-01 10:00" "Iraq" "Technology" "en" false).1.ai_provider
      = "AI News Generator" :=
  C4_degraded_mode_honest (some "hf_k") .timeout (fun _ => none) ⟨0, 0, 0⟩
    "2026-01-01 10:00" "Iraq" "Technology" "en" false rfl

/-- C5: for every valid request — any provider outcome, any translation
outcome, any randomness, any country/topic — the returned `description`
is non-empty and exceeds the 100-character success threshold. -/
theorem C5_description_threshold (hfApiKey : Option String) (outcome : HttpOutcome)
    (backend : TransBackend) (rnd : Rand) (now country topic lang : String)
    (nt : Bool) :
    (get_news_core hfApiKey outcome backend rnd now country topic lang nt).1.description
        ≠ "" ∧
    100 < (get_news_core hfApiKey outcome backend rnd now country topic lang
            nt).1.description.length := by
  have hlen : 100 < (get_news_core hfApiKey outcome backend rnd now country topic lang
      nt).1.description.length := by
    show 100 < (apply_translation backend lang nt
      (pre_translation_result hfApiKey outcome rnd now country topic).1).description.length
    rw [apply_translation_description]
    show 100 < (resolve_content hfApiKey outcome rnd now country topic).1.length
    unfold resolve_content
    split
    · exact generate_ai_news_length hfApiKey.isSome rnd now country topic
    · split
      · exact generate_ai_news_length hfApiKey.isSome rnd now country topic
      · rename_i t heq hcond
        exact (router_some hfApiKey outcome (get_news_prompt country topic) 2
          t heq).2
  refine ⟨?_, hlen⟩
  intro he
  rw [he] at hlen
  simp at hlen

/-- C8: the router classifies an attempt as success only when the body is
truthy and strictly longer than 100 characters; anything shorter is
returned as `None`, so it is never recorded as the authoritative
content. -/
theorem C8_success_needs_length (hfApiKey : Option String) (outcome : HttpOutcome)
    (prompt : String) (max_retries : Nat) (t : String)
    (h : call_huggingface_router hfApiKey outcome prompt max_retries = some t) :
    t ≠ "" ∧ 100 < t.length :=
  router_some hfApiKey outcome prompt max_retries t h

/-- Witness for C8: a 200 response whose `generated_text` is 101+
characters long is classified as success and satisfies the threshold. -/
theorem C8_success_needs_length_witness :
    ("HEADLINE: Sample\n\nSUMMARY: A sufficiently long generated body of text used to exercise the success classifier." : String) ≠ "" ∧
    100 < ("HEADLINE: Sample\n\nSUMMARY: A sufficiently long generated body of text used to exercise the success classifier." : String).length :=
  C8_success_needs_length (some "hf_k")
    (.ok [{ generated_text := some "HEADLINE: Sample\n\nSUMMARY: A sufficiently long generated body of text used to exercise the success classifier.", asString := "" }])
    "prompt" 2
    "HEADLINE: Sample\n\nSUMMARY: A sufficiently long generated body of text used to exercise the success classifier."
    (by decide)

/-- C9: a POST whose body parses to the empty JSON object is rejected
with HTTP 400 and an error field; a non-empty object lacking every
documented field gets the per-field defaults (country "Global", topic
"Breaking News", original_language "en", needs_translation false). -/
theorem C9_empty_object_rejected (hfApiKey : Option String) (outcome : HttpOutcome)
    (backend : TransBackend) (rnd : Rand) (now : String) :
    get_news (.parsed (some [])) hfApiKey outcome backend rnd now
        = (400, .err "No data provided") ∧
    get_news (.parsed (some [("client_version", JVal.s "1.0")])) hfApiKey outcome
        backend rnd now
      = (200, .ok (get_news_core hfApiKey outcome backend rnd now
                    "Global" "Breaking News" "en" false).1) := by
  exact ⟨rfl, rfl⟩

/-- C10: the text sent to the translation backend is the 1200-character
truncation of the input, and the translation result depends only on that
truncation. -/
theorem C10_translation_truncation (backend : TransBackend)
    (text target_language : String) :
    (translate_params text target_language).q = strTake text 1200 ∧
    translate_text backend text target_language =
      translate_text backend (strTake text 1200) target_language := by
  refine ⟨rfl, ?_⟩
  unfold translate_text translate_params
  rw [strTake_idem]

end NewsApp
